import Mathlib

/-!
Verification of the RAPI protocol engine of `openevse.py` (classes
`BaseOpenEVSE` / `SerialOpenEVSE`): frame construction and checksum,
carriage-return-terminated line reading, classification of incoming lines
into command replies versus unsolicited status events, and the reset
procedure.  Python strings are modelled as Lean `String`s, Python byte
values as `Char.toNat`, Python exceptions as an explicit error type, and
the serial stream as an explicit list of incoming data.
-/

deriving instance DecidableEq for Except

namespace OpenEVSE

/-- Python exceptions raised by the code paths modelled here.
`timeout` is `EvseTimeoutError`, `evseError` is a bare `EvseError`,
`noClock` is `NoClock`; `keyError`, `valueError`, `indexError` and
`nameError` are the corresponding Python built-in exceptions. -/
inductive Err where
  | timeout
  | evseError
  | noClock
  | keyError
  | valueError
  | indexError
  | nameError
deriving DecidableEq, Repr

/-- Whitespace characters for Python `str.split()`: space, tab, newline,
carriage return, vertical tab and form feed. -/
def isSpaceChar (c : Char) : Bool :=
  c = ' ' || c = '\t' || c = '\n' || c = '\r' || c = '\x0b' || c = '\x0c'

/-- Core of Python `str.split()`: split a character list on runs of
whitespace, discarding empty pieces.  `acc` holds the characters of the
current word, in reverse. -/
def splitWsAux : List Char → List Char → List (List Char)
  | [], [] => []
  | [], acc => [acc.reverse]
  | c :: cs, acc =>
    if isSpaceChar c then
      match acc with
      | [] => splitWsAux cs []
      | _ => acc.reverse :: splitWsAux cs []
    else splitWsAux cs (c :: acc)

/-- Python `line.split()`: whitespace-separated tokens, no empty tokens. -/
def pySplit (s : String) : List String :=
  (splitWsAux s.data []).map String.mk

/-- Python `s[:n]`: the first `n` characters of `s`. -/
def pySlice (s : String) (n : Nat) : String :=
  String.mk (s.data.take n)

/-- One uppercase hexadecimal digit, for `0 ≤ n < 16`. -/
def hexDigitU (n : Nat) : Char :=
  if n < 10 then Char.ofNat (n + 48) else Char.ofNat (n + 55)

/-- Uppercase hexadecimal digits of `n`, most significant first
(fuel-structured so that it is kernel-reducible; `toHexU` supplies
enough fuel for any input). -/
def toHexUCore : Nat → Nat → List Char
  | 0, _ => []
  | fuel + 1, n =>
    if n < 16 then [hexDigitU n]
    else toHexUCore fuel (n / 16) ++ [hexDigitU (n % 16)]

/-- Uppercase hexadecimal rendering of `n` (Python `format(n, 'X')`). -/
def toHexU (n : Nat) : List Char :=
  toHexUCore (n + 1) n

/-- Python `format(n, '02X')`: uppercase hexadecimal, zero-padded on the
left to a minimum width of two digits. -/
def format02X (n : Nat) : String :=
  String.mk (List.replicate (2 - (toHexU n).length) '0' ++ toHexU n)

/-- Python `' '.join(args)`. -/
def strJoin (sep : String) : List String → String
  | [] => ""
  | [a] => a
  | a :: as => a ++ sep ++ strJoin sep as

/-- The XOR checksum loop of `SerialOpenEVSE._silent_request`:
`checksum = 0; for i in bytearray(command): checksum ^= i`.  Byte values
are the character codes of the (byte) string. -/
def checksum (command : String) : Nat :=
  command.data.foldl (fun a c => Nat.xor a c.toNat) 0

/-- The request frame built by `SerialOpenEVSE._silent_request`:
`command = '$' + ' '.join(args)`; `request = command + '^' + format(checksum, '02X') + '\r'`.
`args` is the argument tuple, whose first element is the mnemonic. -/
def request_frame (args : List String) : String :=
  let command := "$" ++ strJoin " " args
  command ++ "^" ++ format02X (checksum command) ++ "\r"

/-- `(" " + arg)*`: the argument portion of the frame as the specification
writes it. -/
def expandArgs : List String → String
  | [] => ""
  | a :: as => " " ++ a ++ expandArgs as

/-- The `states` dictionary: status code → human label. -/
def statesTable : List (Nat × String) :=
  [(0, "unknown"), (1, "not connected"), (2, "connected"), (3, "charging"),
   (4, "vent required"), (5, "diode check failed"), (6, "gfci fault"),
   (7, "no ground"), (8, "stuck relay"), (9, "gfci self-test failure"),
   (10, "over temperature"), (254, "sleeping"), (255, "disabled")]

/-- Lookup in the `states` dictionary; `none` models a Python `KeyError`. -/
def states (code : Nat) : Option String :=
  (statesTable.find? (fun p => p.1 == code)).map (fun p => p.2)

/-- Value of one hexadecimal digit character, either case. -/
def hexDigitVal (c : Char) : Option Nat :=
  if '0' ≤ c ∧ c ≤ '9' then some (c.toNat - 48)
  else if 'A' ≤ c ∧ c ≤ 'F' then some (c.toNat - 55)
  else if 'a' ≤ c ∧ c ≤ 'f' then some (c.toNat - 87)
  else none

/-- Python `int(tok, 16)` on the protocol's plain hexadecimal tokens:
a nonempty string of hexadecimal digits; `none` models `ValueError`. -/
def hexParse (s : String) : Option Nat :=
  match s.data with
  | [] => none
  | l => l.foldl (fun acc c => match acc, hexDigitVal c with
      | some a, some d => some (a * 16 + d)
      | _, _ => none) (some 0)

-- Sanity checks (concrete evaluation of the codec).
example : request_frame ["GE"] = "$GE^26\r" := by decide
example : pySplit "$ST 02\r" = ["$ST", "02"] := by decide
example : hexParse "02" = some 2 := by decide
example : states 3 = some "charging" := by decide
example : states 11 = none := by decide
example : pySlice "$OK 0\r" 3 = "$OK" := by decide

/-- The valid command-reply line prefixes, `CORRECT_RESPONSE_PREFIXES`. -/
def CORRECT_RESPONSE_PREFIXES : List String := ["$OK", "$NK"]

/-- The mutable per-connection state touched by the response router:
`self.new_status` (the latest decoded status label) and, for the purpose of
observing side effects, the list of labels the registered `self.callback`
has been invoked with, in order. -/
structure DevState where
  new_status : Option String := none
  callbackCalls : List String := []
deriving DecidableEq, Repr

/-- Record a decoded status label:
`if self.callback: self.callback(new_status)` followed by
`self.new_status = new_status`.  `cb` says whether a callback is registered. -/
def recordStatus (cb : Bool) (st : DevState) (label : String) : DevState :=
  { new_status := some label,
    callbackCalls := if cb then st.callbackCalls ++ [label] else st.callbackCalls }

/-- `SerialOpenEVSE._get_response`, non-sync branch, over an explicit list of
the lines the serial port will deliver (each line as returned by
`_read_line`, carriage return included); an exhausted list models a read
that times out, so `_read_line` raises `EvseTimeoutError`.

The source reads one line; if its first three characters are `$OK` or
`$NK` it splits the line and returns `(tokens[0] == '$OK', tokens[1:])`;
otherwise, if the first three characters are `$ST` it decodes the status
(`states[int(tokens[1], 16)]`), invokes the callback if registered, stores
the new status, and in every non-reply case recurses to read the next
line. -/
def getResponse (cb : Bool) : DevState → List String →
    Except Err ((Bool × List String) × DevState)
  | _, [] => .error .timeout
  | st, line :: rest =>
    if pySlice line 3 ∈ CORRECT_RESPONSE_PREFIXES then
      match pySplit line with
      | [] => .error .indexError
      | tok :: toks => .ok ((tok == "$OK", toks), st)
    else
      if pySlice line 3 = "$ST" then
        match pySplit line with
        | _ :: codeTok :: _ =>
          match hexParse codeTok with
          | none => .error .valueError
          | some code =>
            match states code with
            | none => .error .keyError
            | some label => getResponse cb (recordStatus cb st label) rest
        | _ => .error .indexError
      else getResponse cb st rest

/-- `SerialOpenEVSE._read_line`: accumulate single-character reads from the
serial port until a carriage return; a read returning the empty string
(modelled `none`) raises `EvseTimeoutError`.  The stream is the list of
successive results of `self.s.read()`; an exhausted stream models a read
that never returns within the modelled horizon, so the overall result is
`none` (the loop is still running). -/
def readLineAux (acc : List Char) : List (Option Char) → Option (Except Err String)
  | [] => none
  | none :: _ => some (.error .timeout)
  | some c :: rest =>
    if c = '\r' then some (.ok (String.mk (acc ++ [c])))
    else readLineAux (acc ++ [c]) rest

/-- `_read_line` starting from the empty accumulator (`line = ''`). -/
def readLine (stream : List (Option Char)) : Option (Except Err String) :=
  readLineAux [] stream

/-- One classification step of `SerialOpenEVSE._thread_loop` on a line it
has read: a status line (`line[:3] in ('ST ', '$ST')`) triggers the
callback with its decoded label — and, when `write_allowed` is cleared,
schedules a timer re-setting it — while any other line is published to the
`newline` mailbox slot. -/
inductive LoopEffect where
  | statusCb (label : String) (gateTimerScheduled : Bool)
  | publish (line : String)
deriving DecidableEq, Repr

/-- The body of `SerialOpenEVSE._thread_loop` after a successful read of
`line`, with `writeAllowed` the current state of the `write_allowed`
event. -/
def threadLoopBody (writeAllowed : Bool) (line : String) : Except Err LoopEffect :=
  if pySlice line 3 = "ST " ∨ pySlice line 3 = "$ST" then
    match pySplit line with
    | _ :: codeTok :: _ =>
      match hexParse codeTok with
      | none => .error .valueError
      | some code =>
        match states code with
        | none => .error .keyError
        | some label => .ok (.statusCb label (!writeAllowed))
    | _ => .error .indexError
  else .ok (.publish line)

/-- The serial timeout regimes (`STANDARD_SERIAL_TIMEOUT = 0.5`,
`RESET_SERIAL_TIMEOUT = 10`, `STATUS_SERIAL_TIMEOUT = 0`,
`SYNC_SERIAL_TIMEOUT = 0.5`, in seconds). -/
inductive TimeoutKind where
  | standard
  | reset
  | status
  | sync
deriving DecidableEq, Repr

/-- Timeout values in seconds. -/
def timeoutSeconds : TimeoutKind → ℚ
  | .standard => 1 / 2
  | .reset => 10
  | .status => 0
  | .sync => 1 / 2

/-- Externally visible actions of the reset procedure: writing bytes to the
serial port, assigning `self.s.timeout`, and `time.sleep`. -/
inductive Ev where
  | write (s : String)
  | setTimeout (t : TimeoutKind)
  | sleep (seconds : ℚ)
deriving DecidableEq, Repr

/-- `SerialOpenEVSE._reinitialize`, non-sync branch, over the list of lines
the port will deliver: set the reset timeout, read one line (an empty list
models a read timing out, which raises `EvseTimeoutError` before the
timeout is restored), restore the standard timeout, and if the line starts
with `ST` decode it as a status (updating `new_status` and invoking the
callback); any other line raises `EvseError`.  Returns the trace of
actions performed together with the outcome. -/
def reinitializeNoSync (cb : Bool) (st : DevState) (lines : List String) :
    List Ev × Except Err DevState :=
  match lines with
  | [] => ([.setTimeout .reset], .error .timeout)
  | line :: _ =>
    let tr : List Ev := [.setTimeout .reset, .setTimeout .standard]
    if pySlice line 2 = "ST" then
      match pySplit line with
      | _ :: codeTok :: _ =>
        match hexParse codeTok with
        | none => (tr, .error .valueError)
        | some code =>
          match states code with
          | none => (tr, .error .keyError)
          | some label => (tr, .ok (recordStatus cb st label))
      | _ => (tr, .error .indexError)
    else (tr, .error .evseError)

/-- `BaseOpenEVSE.reset` on a synchronous (non-sync) serial connection:
`self._silent_request('FR')` (which just writes the encoded frame, with no
reply read), then `self._reinitialize()`, then `time.sleep(1)`.  An
exception skips everything after the raising step. -/
def resetNoSync (cb : Bool) (st : DevState) (lines : List String) :
    List Ev × Except Err DevState :=
  let send : List Ev := [.write (request_frame ["FR"])]
  match reinitializeNoSync cb st lines with
  | (tr, .ok st2) => (send ++ tr ++ [.sleep 1], .ok st2)
  | (tr, .error e) => (send ++ tr, .error e)

/-- Python `int(s)` on the protocol's decimal fields: optional sign
followed by a nonempty digit string; `none` models `ValueError`. -/
def decParse (s : String) : Option Int :=
  let digitsVal : List Char → Option Nat := fun l =>
    if l ≠ [] ∧ l.all Char.isDigit then
      some (l.foldl (fun a c => a * 10 + (c.toNat - 48)) 0)
    else none
  match s.data with
  | '-' :: rest => (digitsVal rest).map (fun n => -(n : Int))
  | '+' :: rest => (digitsVal rest).map (fun n => (n : Int))
  | l => (digitsVal l).map (fun n => (n : Int))

/-- The result type of `datetime.datetime(...)` as `BaseOpenEVSE.time`
would build it. -/
structure PyDateTime where
  year : Int
  month : Int
  day : Int
  hour : Int
  minute : Int
  second : Int
deriving DecidableEq, Repr

/-- The no-clock sentinel reply `['165', '165', '165', '165', '165', '85']`. -/
def noClockSentinel : List String :=
  ["165", "165", "165", "165", "165", "85"]

/-- `BaseOpenEVSE.time()` with no argument, as a function of the reply
`(done, data)` of `self._request('GT')`.  The source is
`if done: if data == [...sentinel...]: raise NoClock;
return datetime.datetime(year=int(data[0])+2000, month=int(data[1]),
day=int(date[2]), hour=int(delta[3]), ...)`; Python evaluates the keyword
arguments left to right, so after `int(data[0])` and `int(data[1])`
succeed, evaluating `date[2]` raises `NameError` (`date` and `delta` are
undefined names — the code means `data`).  `raise EvseError` is reached
when `done` is false. -/
def timeNoArg (done : Bool) (data : List String) : Except Err PyDateTime :=
  if done then
    if data = noClockSentinel then .error .noClock
    else
      match data[0]? with
      | none => .error .indexError
      | some s0 =>
        match decParse s0 with
        | none => .error .valueError
        | some _ =>
          match data[1]? with
          | none => .error .indexError
          | some s1 =>
            match decParse s1 with
            | none => .error .valueError
            | some _ => .error .nameError
  else .error .evseError

-- Sanity checks for the router and reset models.
example : getResponse true ⟨none, []⟩ ["$ST 02\r", "$OK 0\r"] =
    .ok ((true, ["0"]), ⟨some "connected", ["connected"]⟩) := by decide
example : getResponse true ⟨none, []⟩ ["ST 02\r", "$OK\r"] =
    .ok ((true, []), ⟨none, []⟩) := by decide
example : readLine [some 'O', some 'K', some '\r', none] =
    some (.ok "OK\r") := by decide
example : readLine [some 'O', none] = some (.error .timeout) := by decide
example : resetNoSync true ⟨none, []⟩ ["ST 01\r"] =
    ([.write (request_frame ["FR"]), .setTimeout .reset, .setTimeout .standard,
      .sleep 1], .ok ⟨some "not connected", ["not connected"]⟩) := by decide
example : resetNoSync true ⟨none, []⟩ ["$ST 01\r"] =
    ([.write (request_frame ["FR"]), .setTimeout .reset, .setTimeout .standard],
     .error .evseError) := by decide
example : timeNoArg true ["25", "10", "12", "1", "2", "3"] = .error .nameError := by
  decide
example : timeNoArg true noClockSentinel = .error .noClock := by decide

/-! ### Supporting lemmas: whitespace tokenization -/

/-- Join a list of words with single spaces (the shape of a frame body). -/
def joinSp : List (List Char) → List Char
  | [] => []
  | [w] => w
  | w :: ws => w ++ ' ' :: joinSp ws

theorem joinSp_cons (a w : List Char) (ws : List (List Char)) :
    joinSp (a :: w :: ws) = a ++ ' ' :: joinSp (w :: ws) := rfl

theorem splitWsAux_nonspace (w : List Char) (hw : ∀ c ∈ w, isSpaceChar c = false) :
    ∀ (rest : List Char) (acc : List Char),
      splitWsAux (w ++ rest) acc = splitWsAux rest (w.reverse ++ acc) := by
  induction w with
  | nil => intro rest acc; simp
  | cons c cs ih =>
    intro rest acc
    have hc : isSpaceChar c = false := hw c (List.mem_cons_self c cs)
    have hcs : ∀ d ∈ cs, isSpaceChar d = false := fun d hd => hw d (List.mem_cons_of_mem c hd)
    simp only [List.cons_append, splitWsAux, hc, Bool.false_eq_true, if_false,
      List.append_eq]
    rw [ih hcs rest (c :: acc)]
    simp

theorem splitWsAux_words (ws : List (List Char))
    (h : ∀ w ∈ ws, w ≠ [] ∧ ∀ c ∈ w, isSpaceChar c = false) :
    splitWsAux (joinSp ws ++ ['\r']) [] = ws := by
  induction ws with
  | nil => simp [joinSp, splitWsAux, isSpaceChar]
  | cons w ws ih =>
    have hw := h w (List.mem_cons_self w ws)
    have hws : ∀ v ∈ ws, v ≠ [] ∧ ∀ c ∈ v, isSpaceChar c = false :=
      fun v hv => h v (List.mem_cons_of_mem w hv)
    cases ws with
    | nil =>
      simp only [joinSp]
      rw [splitWsAux_nonspace w hw.2]
      simp only [List.append_nil]
      cases hrev : w.reverse with
      | nil => exact absurd (by simpa using hrev) hw.1
      | cons a as =>
        have hstep : splitWsAux ['\r'] (a :: as) = [(a :: as).reverse] := by
          simp [splitWsAux, isSpaceChar]
        rw [hstep, ← hrev, List.reverse_reverse]
    | cons w2 ws2 =>
      rw [joinSp_cons, List.append_assoc, List.cons_append,
        splitWsAux_nonspace w hw.2]
      simp only [List.append_nil]
      cases hrev : w.reverse with
      | nil => exact absurd (by simpa using hrev) hw.1
      | cons a as =>
        have hstep : splitWsAux (' ' :: (joinSp (w2 :: ws2) ++ ['\r'])) (a :: as) =
            (a :: as).reverse :: splitWsAux (joinSp (w2 :: ws2) ++ ['\r']) [] := by
          simp [splitWsAux, isSpaceChar]
        rw [hstep, ih hws, ← hrev, List.reverse_reverse]

theorem joinSp_append_last (ws : List (List Char)) (w ext : List Char) :
    joinSp (ws ++ [w]) ++ ext = joinSp (ws ++ [w ++ ext]) := by
  induction ws with
  | nil => simp [joinSp]
  | cons a as ih =>
    cases as with
    | nil => simp [joinSp, List.append_assoc]
    | cons b bs =>
      have h := ih
      simp only [List.cons_append] at h ⊢
      rw [joinSp_cons, joinSp_cons]
      simp only [List.append_assoc, List.cons_append]
      rw [h]

theorem stringMk_data (s : String) : String.mk s.data = s := rfl

/-- Split a string whose characters are space-joined nonempty space-free
words followed by a carriage return. -/
theorem pySplit_eq (s : String) (ws : List (List Char))
    (hdata : s.data = joinSp ws ++ ['\r'])
    (hw : ∀ w ∈ ws, w ≠ [] ∧ ∀ c ∈ w, isSpaceChar c = false) :
    pySplit s = ws.map String.mk := by
  rw [pySplit, hdata, splitWsAux_words ws hw]

theorem strJoin_data (xs : List String) :
    (strJoin " " xs).data = joinSp (xs.map String.data) := by
  induction xs with
  | nil => rfl
  | cons a as ih =>
    cases as with
    | nil => rfl
    | cons b bs =>
      simp only [strJoin, String.data_append, List.map_cons] at ih ⊢
      rw [ih, joinSp_cons]
      simp

/-! ### Supporting lemmas: checksum bound and hexadecimal rendering -/

theorem foldl_xor_lt (l : List Char) (h : ∀ c ∈ l, c.toNat < 256) :
    ∀ a, a < 256 → l.foldl (fun a c => Nat.xor a c.toNat) a < 256 := by
  induction l with
  | nil => intro a ha; simpa using ha
  | cons c cs ih =>
    intro a ha
    have hc : c.toNat < 256 := h c (List.mem_cons_self c cs)
    have hcs : ∀ d ∈ cs, d.toNat < 256 := fun d hd => h d (List.mem_cons_of_mem c hd)
    have h256 : (256 : Nat) = 2 ^ 8 := by norm_num
    have hx : Nat.xor a c.toNat < 256 := by
      rw [h256] at ha hc ⊢
      exact Nat.xor_lt_two_pow ha hc
    simpa using ih hcs (Nat.xor a c.toNat) hx

theorem checksum_lt (s : String) (h : ∀ c ∈ s.data, c.toNat < 256) :
    checksum s < 256 :=
  foldl_xor_lt s.data h 0 (by norm_num)

set_option maxRecDepth 4000 in
/-- For checksums (which are below 256), `format(·, '02X')` renders exactly
two characters, all of them uppercase hexadecimal digits, none of them
whitespace. -/
theorem hex2_props : ∀ n < 256, (format02X n).length = 2 ∧
    ∀ c ∈ (format02X n).data, isSpaceChar c = false ∧ c ∈ "0123456789ABCDEF".data := by
  decide

theorem strJoin_cons_expand (m : String) (args : List String) :
    strJoin " " (m :: args) = m ++ expandArgs args := by
  induction args generalizing m with
  | nil => apply String.ext; simp [strJoin, expandArgs]
  | cons a as ih =>
    rw [show strJoin " " (m :: a :: as) = m ++ " " ++ strJoin " " (a :: as) from rfl,
      ih a]
    apply String.ext
    simp [String.data_append, expandArgs, List.append_assoc]

/-! ### C1: frame encoding and checksum -/

/-- C1.  For every mnemonic and list of string arguments, the encoded
request frame equals `"$" + mnemonic + (" " + arg)* + "^" + checksum + "\r"`,
where the checksum is the XOR of every byte of the pre-checksum portion
`"$" + mnemonic + (" " + arg)*`, rendered as exactly two uppercase hex
digits (for byte strings); in particular, for the body `"$GE"` the checksum
is the XOR of the bytes `'$'`, `'G'`, `'E'`, rendered as `"26"`. -/
theorem C1_frame_encoding :
    (∀ (m : String) (args : List String),
        request_frame (m :: args) =
          "$" ++ m ++ expandArgs args ++ "^" ++
            format02X (checksum ("$" ++ m ++ expandArgs args)) ++ "\r") ∧
    (∀ (m : String) (args : List String),
        (∀ c ∈ ("$" ++ m ++ expandArgs args).data, c.toNat < 256) →
          (format02X (checksum ("$" ++ m ++ expandArgs args))).length = 2 ∧
          ∀ c ∈ (format02X (checksum ("$" ++ m ++ expandArgs args))).data,
            c ∈ "0123456789ABCDEF".data) ∧
    checksum "$GE" = Nat.xor (Nat.xor (Nat.xor 0 '$'.toNat) 'G'.toNat) 'E'.toNat ∧
    format02X (checksum "$GE") = "26" ∧
    request_frame ["GE"] = "$GE^26\r" := by
  refine ⟨?_, ?_, by decide, by decide, by decide⟩
  · intro m args
    have hcmd : ("$" : String) ++ strJoin " " (m :: args) = "$" ++ m ++ expandArgs args := by
      rw [strJoin_cons_expand]
      apply String.ext
      simp [String.data_append, List.append_assoc]
    simp only [request_frame]
    rw [hcmd]
  · intro m args hascii
    have hlt : checksum ("$" ++ m ++ expandArgs args) < 256 :=
      checksum_lt _ hascii
    refine ⟨(hex2_props _ hlt).1, fun c hc => ((hex2_props _ hlt).2 c hc).2⟩

/-- Witness for C1 at the concrete frame `GE 1`. -/
theorem C1_frame_encoding_witness :
    request_frame ["GE", "1"] =
      "$" ++ "GE" ++ expandArgs ["1"] ++ "^" ++
        format02X (checksum ("$" ++ "GE" ++ expandArgs ["1"])) ++ "\r" ∧
    (format02X (checksum ("$" ++ "GE" ++ expandArgs ["1"]))).length = 2 :=
  ⟨C1_frame_encoding.1 "GE" ["1"],
   (C1_frame_encoding.2.1 "GE" ["1"] (by decide)).1⟩

/-! ### C2: unsolicited status line before the reply -/

/-- C2.  In the synchronous request path, a `$ST 02\r` line arriving before
the reply updates the latest-status slot with the decoded label, invokes
the registered callback (if any) with that label, and leaves the rest of
the stream to resolve the request; in particular with the subsequent
`$OK 0\r` the request resolves to `(ok, ["0"])` and the status line is not
returned as the answer. -/
theorem C2_status_event_before_reply :
    (∀ (cb : Bool) (st : DevState) (rest : List String),
        getResponse cb st ("$ST 02\r" :: rest) =
          getResponse cb (recordStatus cb st "connected") rest) ∧
    getResponse true ⟨none, []⟩ ["$ST 02\r", "$OK 0\r"] =
      .ok ((true, ["0"]), ⟨some "connected", ["connected"]⟩) :=
  ⟨fun _ _ _ => rfl, by decide⟩

/-! ### C3: unrecognized lines are re-read without bound -/

/-- C3 (actual code behavior).  The router skips an unrecognized line by
recursing with no bound and no `MalformedReply`-style failure: for every
`n`, a stream of `n` unrecognized lines followed by a `$OK` reply succeeds
after reading all `n + 1` lines, and a stream consisting only of
unrecognized lines ends in `EvseTimeoutError` (the error raised by the
read), the error type `Err` having no malformed-reply alternative at all. -/
theorem C3_router_rereads_unbounded :
    (∀ (n : Nat) (cb : Bool) (st : DevState),
        getResponse cb st (List.replicate n "XX\r" ++ ["$OK 1\r"]) =
          .ok ((true, ["1"]), st)) ∧
    (∀ (cb : Bool) (st : DevState),
        getResponse cb st ["XX\r"] = .error .timeout) := by
  refine ⟨?_, fun _ _ => rfl⟩
  intro n cb st
  induction n with
  | zero => rfl
  | succ k ih => simpa [List.replicate_succ] using ih

/-! ### C5: line classification is by character prefix, not first token -/

/-- C5 (corrected).  Classification of an incoming line is by fixed-length
character prefix and differs per path: the synchronous request path
(`_get_response`) recognizes the three-character prefixes `$OK`/`$NK`
(reply, where the ok flag still compares the full first token, so a
`$OKAY` line is accepted as a not-ok reply) and `$ST` (status) — a bare
`ST` line is skipped as unrecognized, with no status update; the
background loop (`_thread_loop`) recognizes `ST ` and `$ST`; the reset
wait (`_reinitialize`) recognizes only the two-character prefix `ST`, so a
`$ST` line there raises `EvseError`. -/
theorem C5_prefix_classification :
    (∀ (cb : Bool) (st : DevState) (rest : List String),
        getResponse cb st ("ST 02\r" :: rest) = getResponse cb st rest) ∧
    (∀ (cb : Bool) (st : DevState),
        getResponse cb st ["$OKAY 5\r"] = .ok ((false, ["5"]), st)) ∧
    threadLoopBody true "ST 02\r" = .ok (.statusCb "connected" false) ∧
    threadLoopBody true "$ST 02\r" = .ok (.statusCb "connected" false) ∧
    threadLoopBody false "$ST 02\r" = .ok (.statusCb "connected" true) ∧
    (∀ (cb : Bool) (st : DevState),
        (reinitializeNoSync cb st ["ST 02\r"]).2 = .ok (recordStatus cb st "connected")) ∧
    (∀ (cb : Bool) (st : DevState),
        (reinitializeNoSync cb st ["$ST 02\r"]).2 = .error .evseError) :=
  ⟨fun _ _ _ => rfl, fun _ _ => rfl, by decide, by decide, by decide,
   fun _ _ => rfl, fun _ _ => rfl⟩

/-- Counterexample to C5 as stated: in the synchronous request path a bare
`ST 02\r` line is not classified as a StatusEvent — the request resolves
from the following `$OK` line with the status slot and callback record
left untouched, not updated to `connected`. -/
theorem C5_counterexample :
    getResponse true ⟨none, []⟩ ["ST 02\r", "$OK\r"] =
      .ok ((true, []), ⟨none, []⟩) ∧
    (⟨none, []⟩ : DevState) ≠ ⟨some "connected", ["connected"]⟩ := by
  decide

/-! ### C8: synchronous-mode reset -/

/-- C8 (corrected).  A synchronous-mode reset writes the reset frame
without reading a reply, switches to the extended reset timeout, blocks
for the next line, decodes a status-marker line as a StatusEvent (updating
latest status and recording the callback), restores the standard timeout
and sleeps the fixed settle delay — and then completes without issuing any
further frame; if no line arrives before the extended timeout elapses, it
fails with `EvseTimeoutError`. -/
theorem C8_reset_sync_behavior :
    (∀ (cb : Bool) (st : DevState) (rest : List String),
        resetNoSync cb st ("ST 01\r" :: rest) =
          ([.write (request_frame ["FR"]), .setTimeout .reset,
            .setTimeout .standard, .sleep 1],
           .ok (recordStatus cb st "not connected"))) ∧
    (∀ (cb : Bool) (st : DevState),
        resetNoSync cb st [] =
          ([.write (request_frame ["FR"]), .setTimeout .reset],
           .error .timeout)) :=
  ⟨fun _ _ _ => rfl, fun _ _ => rfl⟩

/-- Counterexample to C8 as stated: after the settle sleep the reset
procedure issues no status query — the only frame written during the whole
successful reset is the `FR` frame itself, and no `GS` frame appears in
the trace. -/
theorem C8_counterexample :
    (resetNoSync true ⟨none, []⟩ ["ST 01\r"]).1 =
      [.write (request_frame ["FR"]), .setTimeout .reset,
       .setTimeout .standard, .sleep 1] ∧
    Ev.write (request_frame ["GS"]) ∉ (resetNoSync true ⟨none, []⟩ ["ST 01\r"]).1 ∧
    (resetNoSync true ⟨none, []⟩ ["ST 01\r"]).1.filter
        (fun e => match e with | .write _ => true | _ => false) =
      [.write (request_frame ["FR"])] := by
  decide

/-! ### C6: the status table and rejection of unmapped codes -/

theorem joinSp_cons_prepend (a : Char) (w : List Char) (ws : List (List Char)) :
    a :: joinSp (w :: ws) = joinSp ((a :: w) :: ws) := by
  cases ws <;> simp [joinSp, joinSp_cons]

/-- Splitting a well-formed status line `"$ST " ++ tok ++ "\r"` yields the
two tokens `$ST` and `tok`. -/
theorem st_line_split (t : String) (ht : t.data ≠ [])
    (hsp : ∀ c ∈ t.data, isSpaceChar c = false) :
    pySplit ("$ST " ++ t ++ "\r") = ["$ST", t] := by
  have hdata : ("$ST " ++ t ++ "\r").data = joinSp [['$', 'S', 'T'], t.data] ++ ['\r'] := by
    simp [String.data_append, joinSp, joinSp_cons]
  rw [pySplit_eq _ _ hdata]
  · simp [stringMk_data]
  · intro w hw
    simp only [List.mem_cons, List.not_mem_nil, or_false] at hw
    rcases hw with hw | hw
    · subst hw; exact ⟨by simp, by decide⟩
    · subst hw; exact ⟨ht, hsp⟩

set_option maxRecDepth 4000 in
/-- Rendering a code below 256 as two hex digits and parsing it back with
`int(·, 16)` recovers the code. -/
theorem hexParse_format02X : ∀ n < 256, hexParse (format02X n) = some n := by
  decide

theorem pySlice_st_line (t : String) : pySlice ("$ST " ++ t ++ "\r") 3 = "$ST" := rfl

/-- C6.  The status-code table maps exactly the codes 0–10, 254 and 255
(code 3 to `charging`, code 255 to `disabled`), and a status line carrying
a code outside the table makes the router fail (the dictionary lookup
raises `KeyError`) rather than pass the unmapped code through. -/
theorem C6_status_table :
    states 3 = some "charging" ∧ states 255 = some "disabled" ∧
    (∀ code : Nat, (states code).isSome ↔
      code ∈ ([0, 1, 2, 3, 4, 5, 6, 7, 8, 9, 10, 254, 255] : List Nat)) ∧
    (∀ code : Nat, code < 256 → states code = none →
      ∀ (cb : Bool) (st : DevState) (rest : List String),
        getResponse cb st (("$ST " ++ format02X code ++ "\r") :: rest) =
          .error .keyError) := by
  refine ⟨by decide, by decide, ?_, ?_⟩
  · intro code
    simp only [states, statesTable, Option.isSome_map']
    rw [List.find?_isSome]
    simp only [List.mem_cons, List.not_mem_nil, or_false, beq_iff_eq]
    constructor
    · rintro ⟨x, hx, hval⟩
      rcases hx with rfl | rfl | rfl | rfl | rfl | rfl | rfl | rfl | rfl | rfl | rfl | rfl | rfl <;>
        (simp only [] at hval; omega)
    · intro h
      rcases h with rfl | rfl | rfl | rfl | rfl | rfl | rfl | rfl | rfl | rfl | rfl | rfl | rfl
      exacts [⟨(0, "unknown"), by simp, rfl⟩,
        ⟨(1, "not connected"), by simp, rfl⟩,
        ⟨(2, "connected"), by simp, rfl⟩,
        ⟨(3, "charging"), by simp, rfl⟩,
        ⟨(4, "vent required"), by simp, rfl⟩,
        ⟨(5, "diode check failed"), by simp, rfl⟩,
        ⟨(6, "gfci fault"), by simp, rfl⟩,
        ⟨(7, "no ground"), by simp, rfl⟩,
        ⟨(8, "stuck relay"), by simp, rfl⟩,
        ⟨(9, "gfci self-test failure"), by simp, rfl⟩,
        ⟨(10, "over temperature"), by simp, rfl⟩,
        ⟨(254, "sleeping"), by simp, rfl⟩,
        ⟨(255, "disabled"), by simp, rfl⟩]
  · intro code hlt hnone cb st rest
    have hprops := hex2_props code hlt
    have hne : (format02X code).data ≠ [] := by
      intro h
      have : (format02X code).length = 2 := hprops.1
      rw [String.length, h] at this
      simp at this
    have hsp : ∀ c ∈ (format02X code).data, isSpaceChar c = false :=
      fun c hc => (hprops.2 c hc).1
    have hsplit := st_line_split (format02X code) hne hsp
    rw [getResponse, pySlice_st_line (format02X code), if_neg (by decide),
      if_pos rfl, hsplit]
    simp only [hexParse_format02X code hlt, hnone]

/-- Witness for C6: the unmapped code 11 (hex `0B`) makes the router fail
with `KeyError`. -/
theorem C6_status_table_witness :
    states 11 = none ∧
    getResponse true ⟨none, []⟩ ["$ST " ++ format02X 11 ++ "\r"] =
      .error .keyError :=
  ⟨by decide, C6_status_table.2.2.2 11 (by decide) (by decide) true ⟨none, []⟩ []⟩

/-! ### C7: carriage-return-terminated line reading -/

theorem readLineAux_skip (cs : List Char) (h : ∀ c ∈ cs, c ≠ '\r') :
    ∀ (acc : List Char) (s : List (Option Char)),
      readLineAux acc (cs.map some ++ s) = readLineAux (acc ++ cs) s := by
  induction cs with
  | nil => intro acc s; simp
  | cons c cs ih =>
    intro acc s
    have hc : c ≠ '\r' := h c (List.mem_cons_self c cs)
    simp only [List.map_cons, List.cons_append, readLineAux, if_neg hc,
      List.append_eq]
    rw [ih (fun d hd => h d (List.mem_cons_of_mem c hd)) (acc ++ [c]) s]
    simp

/-- C7.  `_read_line` accumulates single-byte reads and returns exactly at
the first carriage return, terminator included; it raises
`EvseTimeoutError` exactly when a read yields zero bytes before a carriage
return has been seen; and on a stream with neither a carriage return nor
an empty read it keeps reading (neither returns nor raises within the
modelled horizon). -/
theorem C7_read_line_behavior :
    (∀ (cs : List Char) (post : List (Option Char)), (∀ c ∈ cs, c ≠ '\r') →
        readLine (cs.map some ++ some '\r' :: post) =
          some (.ok (String.mk (cs ++ ['\r'])))) ∧
    (∀ (cs : List Char) (rest : List (Option Char)), (∀ c ∈ cs, c ≠ '\r') →
        readLine (cs.map some ++ none :: rest) = some (.error .timeout)) ∧
    (∀ cs : List Char, (∀ c ∈ cs, c ≠ '\r') →
        readLine (cs.map some) = none) := by
  refine ⟨?_, ?_, ?_⟩
  · intro cs post h
    rw [readLine, readLineAux_skip cs h [] (some '\r' :: post)]
    simp [readLineAux]
  · intro cs rest h
    rw [readLine, readLineAux_skip cs h [] (none :: rest)]
    rfl
  · intro cs h
    rw [readLine, show (cs.map some : List (Option Char)) = cs.map some ++ [] by simp,
      readLineAux_skip cs h [] []]
    rfl

/-- Witness for C7: reading `OK\r` returns the full line including the
terminator; an empty read before the terminator raises the timeout. -/
theorem C7_read_line_witness :
    readLine [some 'O', some 'K', some '\r'] =
      some (.ok (String.mk (['O', 'K'] ++ ['\r']))) ∧
    readLine [some 'X', none] = some (.error .timeout) :=
  ⟨by simpa using C7_read_line_behavior.1 ['O', 'K'] [] (by decide),
   by simpa using C7_read_line_behavior.2.1 ['X'] [] (by decide)⟩

/-! ### C10: the NameError in `time()` -/

/-- C10 (corrected).  When the `GT` request succeeds and the reply fields
are not the no-clock sentinel, then provided the first two fields exist
and parse as integers, `time()` raises `NameError` (the return expression
references the undefined names `date` and `delta` instead of `data`), so
the path returning a `datetime` is unreachable: every evaluation of the
no-argument `time()` body ends in an exception (sentinel → `NoClock`,
failed request → `EvseError`, malformed fields → `IndexError` or
`ValueError`, anything else → `NameError`). -/
theorem C10_time_name_error :
    (∀ (s0 s1 : String) (rest : List String),
        (s0 :: s1 :: rest) ≠ noClockSentinel →
        (decParse s0).isSome → (decParse s1).isSome →
        timeNoArg true (s0 :: s1 :: rest) = .error .nameError) ∧
    timeNoArg true noClockSentinel = .error .noClock ∧
    (∀ data : List String, timeNoArg false data = .error .evseError) ∧
    (∀ (done : Bool) (data : List String), ∃ e, timeNoArg done data = .error e) := by
  refine ⟨?_, by decide, fun _ => rfl, ?_⟩
  · intro s0 s1 rest hne h0 h1
    obtain ⟨v0, hv0⟩ := Option.isSome_iff_exists.mp h0
    obtain ⟨v1, hv1⟩ := Option.isSome_iff_exists.mp h1
    simp only [timeNoArg, if_true, if_neg hne, List.getElem?_cons_zero,
      List.getElem?_cons_succ, hv0, hv1]
  · intro done data
    cases done with
    | false => exact ⟨.evseError, rfl⟩
    | true =>
      by_cases hs : data = noClockSentinel
      · exact ⟨.noClock, by simp [timeNoArg, hs]⟩
      · cases h0 : data[0]? with
        | none => exact ⟨.indexError, by simp [timeNoArg, hs, h0]⟩
        | some s0 =>
          cases hp0 : decParse s0 with
          | none => exact ⟨.valueError, by simp [timeNoArg, hs, h0, hp0]⟩
          | some v0 =>
            cases h1 : data[1]? with
            | none => exact ⟨.indexError, by simp [timeNoArg, hs, h0, hp0, h1]⟩
            | some s1 =>
              cases hp1 : decParse s1 with
              | none => exact ⟨.valueError, by simp [timeNoArg, hs, h0, hp0, h1, hp1]⟩
              | some v1 =>
                exact ⟨.nameError, by simp [timeNoArg, hs, h0, hp0, h1, hp1]⟩

/-- Witness for C10 at a well-formed non-sentinel reply. -/
theorem C10_time_name_error_witness :
    timeNoArg true ["25", "10", "12", "1", "2", "3"] = .error .nameError :=
  C10_time_name_error.1 "25" "10" ["12", "1", "2", "3"] (by decide) (by decide)
    (by decide)

/-- Counterexample to C10 as stated: a successful reply whose field list is
empty (hence not the sentinel) raises `IndexError`, not `NameError`. -/
theorem C10_counterexample :
    timeNoArg true [] = .error .indexError ∧
    ([] : List String) ≠ noClockSentinel ∧
    (Except.error Err.indexError : Except Err PyDateTime) ≠ .error .nameError := by
  decide

/-! ### C4: decoding an encoded frame -/

/-- Counterexample to C4 as stated: the encoded frame for mnemonic `GE`
with no arguments splits into the single token `$GE^26` — the checksum and
caret are part of the last token, so neither `$GE` nor `GE` is recovered
as the mnemonic and the (empty) argument-token list does not round-trip. -/
theorem C4_counterexample :
    pySplit (request_frame ["GE"]) = ["$GE^26"] ∧
    ("$GE^26" : String) ≠ "$GE" ∧ ("$GE^26" : String) ≠ "GE" ∧
    pySplit (request_frame ["GE"]) ≠ ["$GE"] := by
  decide

/-- C4 (corrected).  Splitting an encoded frame on whitespace (the
decoder's tokenization) recovers the mnemonic token `"$" + mnemonic` and
all arguments except the last exactly, while the last token carries the
`"^" + checksum` residue: with at least one argument the tokens are
`("$" + m) :: args-with-last-suffixed`, and with no arguments the single
token is `"$" + m + "^" + checksum`.  (Arguments must be nonempty,
whitespace-free byte strings for the frame to tokenize at all.) -/
theorem C4_roundtrip_checksum_residue :
    ∀ (m : String) (args : List String),
      m.data ≠ [] → (∀ c ∈ m.data, isSpaceChar c = false) →
      (∀ a ∈ args, a.data ≠ [] ∧ ∀ c ∈ a.data, isSpaceChar c = false) →
      (∀ c ∈ ("$" ++ strJoin " " (m :: args)).data, c.toNat < 256) →
      (args = [] →
        pySplit (request_frame (m :: args)) =
          ["$" ++ m ++ "^" ++ format02X (checksum ("$" ++ strJoin " " (m :: args)))]) ∧
      (∀ (pre : List String) (lastA : String), args = pre ++ [lastA] →
        pySplit (request_frame (m :: args)) =
          ("$" ++ m) :: pre ++
            [lastA ++ "^" ++ format02X (checksum ("$" ++ strJoin " " (m :: args)))]) := by
  intro m args hm hmsp hargs hascii
  have hcslt : checksum ("$" ++ strJoin " " (m :: args)) < 256 :=
    checksum_lt _ hascii
  have hcsprops := hex2_props _ hcslt
  set cs : String := format02X (checksum ("$" ++ strJoin " " (m :: args))) with hcs
  have hcssp : ∀ c ∈ cs.data, isSpaceChar c = false := fun c hc => (hcsprops.2 c hc).1
  constructor
  · intro h0
    subst h0
    have hdata : (request_frame [m]).data =
        joinSp [('$' :: m.data) ++ '^' :: cs.data] ++ ['\r'] := by
      simp only [request_frame, String.data_append, joinSp, ← hcs]
      simp [strJoin, String.data_append, List.append_assoc]
    rw [pySplit_eq _ _ hdata]
    · simp only [List.map_cons, List.map_nil]
      have e : String.mk (('$' :: m.data) ++ '^' :: cs.data) =
          "$" ++ m ++ "^" ++ cs := by
        apply String.ext
        simp [String.data_append, List.append_assoc]
      rw [e]
    · intro w hw
      simp only [List.mem_cons, List.not_mem_nil, or_false] at hw
      subst hw
      refine ⟨by simp, ?_⟩
      intro c hc
      rcases List.mem_append.mp hc with hc | hc
      · rcases List.mem_cons.mp hc with rfl | hc
        · decide
        · exact hmsp c hc
      · rcases List.mem_cons.mp hc with rfl | hc
        · decide
        · exact hcssp c hc
  · intro pre lastA hpre
    subst hpre
    have hlastA := hargs lastA (List.mem_append.mpr (Or.inr (List.mem_singleton.mpr rfl)))
    have hdata : (request_frame (m :: (pre ++ [lastA]))).data =
        joinSp (('$' :: m.data) :: (pre.map String.data ++
          [lastA.data ++ '^' :: cs.data])) ++ ['\r'] := by
      have h1 : ("$" ++ strJoin " " (m :: (pre ++ [lastA]))).data =
          joinSp (('$' :: m.data) :: (pre.map String.data ++ [lastA.data])) := by
        rw [String.data_append, strJoin_data]
        simp only [List.map_cons, List.map_append, List.map_cons, List.map_nil]
        rw [show (("$" : String).data ++ joinSp (m.data :: (pre.map String.data ++ [lastA.data]))) =
          '$' :: joinSp (m.data :: (pre.map String.data ++ [lastA.data])) from rfl]
        exact joinSp_cons_prepend '$' m.data _
      have h2 : joinSp (('$' :: m.data) :: (pre.map String.data ++ [lastA.data])) ++
          '^' :: cs.data =
          joinSp (('$' :: m.data) :: (pre.map String.data ++
            [lastA.data ++ '^' :: cs.data])) := by
        have h3 := joinSp_append_last (('$' :: m.data) :: pre.map String.data)
          lastA.data ('^' :: cs.data)
        simpa [List.cons_append] using h3
      have h4 : (request_frame (m :: (pre ++ [lastA]))).data =
          (("$" ++ strJoin " " (m :: (pre ++ [lastA]))).data ++ '^' :: cs.data) ++
            ['\r'] := by
        simp [request_frame, String.data_append, ← hcs, List.append_assoc]
      rw [h4, h1, h2]
    rw [pySplit_eq _ _ hdata]
    · simp only [List.map_cons, List.map_append, List.map_map, List.map_nil]
      have hmapid : pre.map (String.mk ∘ String.data) = pre := by
        have : (String.mk ∘ String.data) = fun a : String => a := funext fun a => rfl
        rw [this, List.map_id']
      have e1 : String.mk ('$' :: m.data) = "$" ++ m := by
        apply String.ext
        simp [String.data_append]
      have e2 : String.mk (lastA.data ++ '^' :: cs.data) = lastA ++ "^" ++ cs := by
        apply String.ext
        simp [String.data_append, List.append_assoc]
      rw [hmapid, e1, e2]
      simp [List.cons_append]
    · intro w hw
      simp only [List.mem_cons, List.mem_append, List.mem_map,
        List.not_mem_nil, or_false] at hw
      rcases hw with rfl | ⟨a, ha, rfl⟩ | rfl
      · refine ⟨by simp, ?_⟩
        intro c hc
        rcases List.mem_cons.mp hc with rfl | hc
        · decide
        · exact hmsp c hc
      · have haw := hargs a (List.mem_append.mpr (Or.inl ha))
        exact ⟨haw.1, haw.2⟩
      · refine ⟨by simp, ?_⟩
        intro c hc
        rcases List.mem_append.mp hc with hc | hc
        · exact hlastA.2 c hc
        · rcases List.mem_cons.mp hc with rfl | hc
          · decide
          · exact hcssp c hc

/-- Witness for C4 at the concrete frame `GE 1`: the mnemonic token and
the checksum-suffixed last argument. -/
theorem C4_roundtrip_checksum_residue_witness :
    pySplit (request_frame ["GE", "1"]) =
      ("$" ++ "GE") :: [] ++
        ["1" ++ "^" ++ format02X (checksum ("$" ++ strJoin " " ["GE", "1"]))] :=
  (C4_roundtrip_checksum_residue "GE" ["1"] (by decide) (by decide) (by decide)
    (by decide)).2 [] "1" rfl

end OpenEVSE
